import Mathlib

/-!
Verification development for the dummycsv repository: a Django/DRF service that
lets users define CSV schemas (typed, ordered columns), generate synthetic CSV
datasets asynchronously, and download the resulting files.

The embedding below translates, from the source:
  * `datasets/models.py`   — column types and their value generators, `DataSchema.generate`;
  * `datasets/tasks.py`    — the chunked file-generation task `generate_file`;
  * `datasets/views.py`    — the streaming download (`DataSetViewSet.retrieve`,
                             `chunked_read`) and the queryset scoping of the viewsets;
  * `datasets/serializers.py` — `ColumnSerializer.validate`.
Python's global random source is modelled as an explicit stream of naturals, and
the CSV layer (Python's stdlib `csv` module, an external collaborator) is modelled
from the spec's §4.3 contract: every field quoted with quote doubling on write
(`QUOTE_ALL`), standard state-machine parse on read.
-/

namespace DummyCsv

/-- Python's global random source, modelled as an infinite stream of naturals:
`g 0` is the next raw draw, `rngTail g` the stream after consuming one draw. -/
abbrev RNG := Nat → Nat

def rngTail (g : RNG) : RNG := fun n => g (n + 1)

/-- Model of `random.randint(a, b)`: a uniform integer with `a <= value <= b` (both ends
inclusive).  A draw `h` from the stream is mapped into the inclusive range as
`a + h % (b - a + 1)`; every value of the range is reached by some draw. -/
def randint (a b : Int) (g : RNG) : Int × RNG :=
  (a + (g 0 : Int) % (b - a + 1), rngTail g)

/-- Model of `random.choice(lst)`: pick one element of a non-empty list. -/
def choice (l : List String) (g : RNG) : String × RNG :=
  (l.getD (g 0 % l.length) "", rngTail g)

/-- Modelled from the spec: the repository's `datasets/gen_data.py` module
(sample pools `first_names`, `last_names`, `jobs`, `sentences`) is not under
`src/`; §3 says FullName/Job "pick from fixed sample pools" and Text samples
"sentence fragments".  The pool contents are arbitrary non-empty constants;
no claim depends on them. -/
def first_names : List String := ["John", "Jane", "Alex"]

/-- Modelled from the spec: see `first_names`. -/
def last_names : List String := ["Doe", "Smith"]

/-- Modelled from the spec: see `first_names`. -/
def jobs : List String := ["Engineer", "Teacher", "Nurse"]

/-- Modelled from the spec: see `first_names`. -/
def sentences : List String := ["Lorem ipsum. ", "Dolor sit amet. "]

/-- The closed enumeration `TYPE_SIDS` of `models.py`: the five column kinds. -/
inductive TypeSid where
  | name
  | job
  | text
  | integer
  | date
deriving DecidableEq, Repr

/-- Validated generation parameters for the parameterized kinds (`params['start']`,
`params['end']` in `models.py`).  `end` is a Lean keyword, hence the quoted field. -/
structure Params where
  start : Int
  «end» : Int
deriving DecidableEq, Repr

/-- A generated cell value: the generators return strings (FullName, Job, Text),
integers (Integer) or dates (Date, kept as days since the Unix epoch). -/
inductive Value where
  | str (s : String)
  | int (n : Int)
  | date (days : Nat)
deriving DecidableEq, Repr

/-- Model of `FullName.generate_value`: `f'{choice(first_names)} {choice(last_names)}'`. -/
def FullName_generate_value (g : RNG) : Value × RNG :=
  let (f, g₁) := choice first_names g
  let (l, g₂) := choice last_names g₁
  (.str (f ++ " " ++ l), g₂)

/-- Model of `Job.generate_value`: `choice(jobs)`. -/
def Job_generate_value (g : RNG) : Value × RNG :=
  let (j, g₁) := choice jobs g
  (.str j, g₁)

/-- The fragment count drawn by `Text.generate_value`: `randint(start, end)`. -/
def text_fragment_count (p : Params) (g : RNG) : Int :=
  (randint p.start p.«end» g).1

/-- Concatenate `n` draws from the `sentences` pool (`''.join(choice(sentences)
for _ in range(n))`). -/
def joinChoices : Nat → RNG → String × RNG
  | 0, g => ("", g)
  | n + 1, g =>
    let (s, g₁) := choice sentences g
    let (rest, g₂) := joinChoices n g₁
    (s ++ rest, g₂)

/-- Model of `Text.generate_value`: draw `n = randint(start, end)` then join `n` sampled
sentence fragments. -/
def Text_generate_value (p : Params) (g : RNG) : Value × RNG :=
  let n := text_fragment_count p g
  let (s, g₁) := joinChoices n.toNat (rngTail g)
  (.str s, g₁)

/-- Model of `Integer.generate_value`: `randint(params['start'], params['end'])`. -/
def Integer_generate_value (p : Params) (g : RNG) : Int × RNG :=
  randint p.start p.«end» g

/-- Constant `DATE_DELTA` of `models.py`: seconds between the epoch and "now"
at module load time (a fixed constant for any one process; its value is
irrelevant to every claim). -/
def DATE_DELTA : Nat := 1760227200

/-- Model of `Date.generate_value`: `(DATE_START + timedelta(seconds=randint(0, DATE_DELTA))).date()`,
kept as days since the epoch. -/
def Date_generate_value (g : RNG) : Value × RNG :=
  let (s, g₁) := randint 0 (DATE_DELTA : Int) g
  (.date (s.toNat / 86400), g₁)

/-- Model of `ColumnType.get_proxy` + the proxy's `generate_value`: dispatch on the sid.
The Text/Integer proxies assert a non-empty `params` dictionary; a missing
`params` raises `AssertionError`, modelled as `Except.error`. -/
def ColumnType_generate_value (t : TypeSid) (p : Option Params) (g : RNG) :
    Except String (Value × RNG) :=
  match t with
  | .name => .ok (FullName_generate_value g)
  | .job => .ok (Job_generate_value g)
  | .text =>
    match p with
    | none => .error "AssertionError"
    | some p => .ok (Text_generate_value p g)
  | .integer =>
    match p with
    | none => .error "AssertionError"
    | some p =>
      let (n, g₁) := Integer_generate_value p g
      .ok (.int n, g₁)
  | .date => .ok (Date_generate_value g)

/-- A `Column` row of `models.py`: name, output order, optional generation
params and the column type (its sid). -/
structure Column where
  name : String
  order : Nat
  params : Option Params
  type : TypeSid
deriving DecidableEq, Repr

/-- A column type with params present whenever its kind requires them
(the state the serializer guarantees for persisted columns). -/
def paramsOk (t : TypeSid) (p : Option Params) : Bool :=
  match t with
  | .text => p.isSome
  | .integer => p.isSome
  | _ => true

/-- The ordering used by `order_by('order')`. -/
def colLE (a b : Column) : Prop := a.order ≤ b.order

instance : DecidableRel colLE := fun a b => Nat.decLe a.order b.order

instance : IsTotal Column colLE := ⟨fun a b => Nat.le_total a.order b.order⟩

instance : IsTrans Column colLE := ⟨fun _ _ _ => Nat.le_trans⟩

/-- Model of `DataSchema` of `models.py`, with its related columns.  `separator` is a
single character (Python's `csv` requires a 1-char delimiter; the model fixes
one), `string_character` the quote character. -/
structure DataSchema where
  title : String
  modified : Nat
  separator : Char
  string_character : Char
  user : Nat
  columns : List Column
deriving DecidableEq, Repr

/-- Model of `self.columns.select_related('type').order_by('order')`. -/
def sortedColumns (s : DataSchema) : List Column :=
  List.insertionSort colLE s.columns

/-- The header row yielded first by `DataSchema.generate`:
`[column.name for column in columns]` over the order-sorted columns. -/
def headerRow (s : DataSchema) : List String :=
  (sortedColumns s).map Column.name

/-- One data row: `[proxy.generate_value(params) for proxy, params in proxies]`,
threading the random stream left to right through the sorted columns. -/
def genRowAux : List Column → RNG → Except String (List Value × RNG)
  | [], g => .ok ([], g)
  | c :: cs, g =>
    match ColumnType_generate_value c.type c.params g with
    | .error e => .error e
    | .ok (v, g₁) =>
      match genRowAux cs g₁ with
      | .error e => .error e
      | .ok (vs, g₂) => .ok (v :: vs, g₂)

/-- The `count` data rows of `DataSchema.generate` (the loop after the header). -/
def generateData (cols : List Column) : Nat → RNG → Except String (List (List Value))
  | 0, _ => .ok []
  | n + 1, g =>
    match genRowAux cols g with
    | .error e => .error e
    | .ok (row, g₁) =>
      match generateData cols n g₁ with
      | .error e => .error e
      | .ok rows => .ok (row :: rows)

/-- A yielded row of `DataSchema.generate`: the header row (column names) or a
data row (generated values). -/
inductive Row where
  | header (names : List String)
  | data (values : List Value)
deriving DecidableEq, Repr

/-- Model of `DataSchema.generate(count)`: yield the header row, then `count` data rows.
An `AssertionError` from a parameterized column with missing params surfaces as
`Except.error` (in Python the exception escapes the generator mid-iteration). -/
def DataSchema_generate (s : DataSchema) (count : Nat) (g : RNG) :
    Except String (List Row) :=
  match generateData (sortedColumns s) count g with
  | .error e => .error e
  | .ok rows => .ok (.header (headerRow s) :: rows.map .data)

/-! ## CSV layer

Python's stdlib `csv` module is an external collaborator; its behaviour is
modelled from the spec's §4.3 contract.  The writer used by the generation task
(`csv.writer(..., quoting=csv.QUOTE_ALL)`) quotes every field unconditionally,
doubling embedded quote characters, joins fields with the delimiter and
terminates the record with the default `\r\n`.  The reader parses a record with
the standard CSV state machine (quoted fields transparent to embedded
delimiter/quote characters, doubled quotes collapsing to one). -/

/-- Double every occurrence of the quote character inside a field
(standard CSV quoting escape rule). -/
def escapeField (q : Char) (f : List Char) : List Char :=
  f.flatMap fun c => if c = q then [q, q] else [c]

/-- Quote one field unconditionally: `q`, the escaped field, `q`. -/
def encodeField (q : Char) (f : List Char) : List Char :=
  q :: (escapeField q f ++ [q])

/-- Encode one record under `QUOTE_ALL`: every field quoted, fields joined by
the delimiter (no record terminator here). -/
def encodeRow (sep q : Char) : List (List Char) → List Char
  | [] => []
  | [f] => encodeField q f
  | f :: rest => encodeField q f ++ sep :: encodeRow sep q rest

/-- Parser states of the CSV reader's record state machine. -/
inductive CsvSt where
  | startField
  | inField
  | inQuoted
  | quoteInQuoted
deriving DecidableEq, Repr

/-- Accumulator of the CSV reader: current state, current field (in order),
completed fields (in order). -/
structure ParseAcc where
  st : CsvSt
  cur : List Char
  fields : List (List Char)
deriving DecidableEq, Repr

/-- One transition of the CSV reader's state machine on one character. -/
def csvStep (sep q : Char) (a : ParseAcc) (c : Char) : ParseAcc :=
  match a.st with
  | .startField =>
    if c = q then { a with st := .inQuoted }
    else if c = sep then { a with fields := a.fields ++ [a.cur], cur := [] }
    else { a with st := .inField, cur := a.cur ++ [c] }
  | .inField =>
    if c = sep then { st := .startField, cur := [], fields := a.fields ++ [a.cur] }
    else { a with cur := a.cur ++ [c] }
  | .inQuoted =>
    if c = q then { a with st := .quoteInQuoted }
    else { a with cur := a.cur ++ [c] }
  | .quoteInQuoted =>
    if c = q then { a with st := .inQuoted, cur := a.cur ++ [q] }
    else if c = sep then { st := .startField, cur := [], fields := a.fields ++ [a.cur] }
    else { a with st := .inField, cur := a.cur ++ [c] }

/-- Finish a record at end of input: flush the current field, except that a
fully empty record parses to no fields at all (Python's reader yields `[]`
for an empty line). -/
def csvFinish (a : ParseAcc) : List (List Char) :=
  match a.st with
  | .startField => if a.fields = [] ∧ a.cur = [] then [] else a.fields ++ [a.cur]
  | _ => a.fields ++ [a.cur]

/-- Decode one record: run the state machine over the characters. -/
def decodeRow (sep q : Char) (s : List Char) : List (List Char) :=
  csvFinish (s.foldl (csvStep sep q) ⟨.startField, [], []⟩)

/-- String-level encoder for one record (no terminator). -/
def encodeRowStr (sep q : Char) (fields : List String) : String :=
  String.mk (encodeRow sep q (fields.map String.toList))

/-- String-level decoder for one record. -/
def decodeRowStr (sep q : Char) (s : String) : List String :=
  (decodeRow sep q s.toList).map String.mk

/-- Two-digit zero padding for ISO dates. -/
def pad2 (n : Nat) : String :=
  if n < 10 then "0" ++ toString n else toString n

/-- Civil-calendar conversion: days since 1970-01-01 to `(year, month, day)`
(the standard days-from-civil inverse, used to render `datetime.date`). -/
def civilFromDays (z₀ : Nat) : Nat × Nat × Nat :=
  let z := z₀ + 719468
  let era := z / 146097
  let doe := z % 146097
  let yoe := (doe - doe / 1460 + doe / 36524 - doe / 146096) / 365
  let y := yoe + era * 400
  let doy := doe - (365 * yoe + yoe / 4 - yoe / 100)
  let mp := (5 * doy + 2) / 153
  let d := doy - (153 * mp + 2) / 5 + 1
  let m := if mp < 10 then mp + 3 else mp - 9
  (if m ≤ 2 then y + 1 else y, m, d)

/-- Model of `str(value)` as the `csv` writer applies it to a cell: strings unchanged,
integers in decimal, dates in ISO `YYYY-MM-DD` form. -/
def valueToString : Value → String
  | .str s => s
  | .int n => toString n
  | .date days =>
    let (y, m, d) := civilFromDays days
    toString y ++ "-" ++ pad2 m ++ "-" ++ pad2 d

/-- The string cells of one yielded row (header cells are already strings). -/
def rowToStrings : Row → List String
  | .header names => names
  | .data values => values.map valueToString

/-- Model of `csv.writer(..., delimiter=sep, quotechar=q, quoting=csv.QUOTE_ALL).writerow`:
the fully quoted record plus the default `\r\n` terminator.  This is the encoder
of the generation task (`tasks.generate_file`). -/
def writerowAll (sep q : Char) (row : Row) : String :=
  encodeRowStr sep q (rowToStrings row) ++ "\r\n"

/-- Whether `QUOTE_MINIMAL` must quote a field: it contains the delimiter, the
quote character, or a character of the line terminator. -/
def needsQuote (sep q : Char) (f : List Char) : Bool :=
  f.any fun c => c = sep || c = q || c = '\r' || c = '\n'

/-- Encode one field under `QUOTE_MINIMAL`: quoted (with doubling) only when
needed, otherwise written verbatim. -/
def encodeFieldMin (sep q : Char) (f : List Char) : List Char :=
  if needsQuote sep q f then encodeField q f else f

/-- Join minimally quoted fields with the delimiter. -/
def encodeRowMinAux (sep q : Char) : List (List Char) → List Char
  | [] => []
  | [f] => encodeFieldMin sep q f
  | f :: rest => encodeFieldMin sep q f ++ sep :: encodeRowMinAux sep q rest

/-- Model of `csv.writer(buffer, delimiter=sep).writerow` — the writer of the download
path (`DataSetViewSet.retrieve`), which passes no `quotechar` and no `quoting`:
Python defaults apply, i.e. quote character `"` and `QUOTE_MINIMAL` (a field is
quoted only when it needs it; a record consisting of one single empty field is
quoted to keep the record visible), terminator `\r\n`. -/
def writerowMin (sep : Char) (fields : List String) : String :=
  match fields with
  | [""] => String.mk (encodeField '"' []) ++ "\r\n"
  | _ => String.mk (encodeRowMinAux sep '"' (fields.map String.toList)) ++ "\r\n"

/-- Strip a trailing `\r\n` from a stored line before parsing it. -/
def stripCRLF (s : String) : String :=
  match s.toList.reverse with
  | '\n' :: '\r' :: t => String.mk t.reverse
  | _ => s

/-! ## Chunked writing (`tasks.py`) -/

/-- Constant `CHUNK_SIZE` of `tasks.py`. -/
def CHUNK_SIZE : Nat := 1000

/-- Structural worker for `chunksOf`: the fuel only bounds the recursion depth
(the list length always suffices) and keeps the definition kernel-reducible. -/
def chunksOfGo {α : Type} : Nat → List α → List (List α)
  | _, [] => []
  | 0, _ :: _ => []
  | fuel + 1, x :: xs =>
    (x :: xs.take (CHUNK_SIZE - 1)) :: chunksOfGo fuel (xs.drop (CHUNK_SIZE - 1))

/-- The chunking loop of `generate_file` / `chunked_read`:
`for first in iterator: chunk = list(chain([first], islice(iterator, CHUNK_SIZE - 1)))`
— pull one element, then up to `CHUNK_SIZE - 1` more, repeat until exhausted. -/
def chunksOf {α : Type} (l : List α) : List (List α) :=
  chunksOfGo l.length l

/-- The lines written by the chunked loop of `generate_file`: each chunk is
encoded row by row with the `QUOTE_ALL` writer, chunks in order. -/
def fileLinesChunked (sep q : Char) (rows : List Row) : List String :=
  ((chunksOf rows).map fun chunk => chunk.map (writerowAll sep q)).flatten

/-- The unchunked reference: encode the whole row sequence at once. -/
def fileLinesRef (sep q : Char) (rows : List Row) : List String :=
  rows.map (writerowAll sep q)

/-! ## World state: database rows and the media storage -/

/-- A `DataSet` row of `models.py`: opaque id (also the file name stem),
requested row count, processing flag, creation timestamp and schema reference. -/
structure DataSet where
  id : String
  rows : Nat
  processed : Bool
  created : Nat
  schema : Nat
deriving DecidableEq, Repr

/-- The shared state the task and the views touch: the dataset table, the
schema table (keyed by primary key) and the media storage (file contents as
lists of written lines, keyed by file name). -/
structure World where
  datasets : String → Option DataSet
  schemas : Nat → Option DataSchema
  files : String → Option (List String)

/-- Point update of a finite map represented as a function. -/
def updateMap {κ β : Type} [DecidableEq κ] (m : κ → Option β) (k : κ) (v : β) :
    κ → Option β :=
  fun x => if x = k then some v else m x

/-- Model of `tasks.generate_file(dataset_id)`:
look up the dataset with its schema; if it does not exist, log and return
silently (`.ok` with the world unchanged).  Otherwise generate the row sequence,
write it to `MEDIA_ROOT / f'{dataset_id}.csv'` in chunks of `CHUNK_SIZE`, then
set `processed = True` and save only that field.  Any exception during
generation (the modelled one: `AssertionError` from a parameterized column
without params; a dangling schema reference cannot happen under the FK
constraint) propagates as `.error`, which Celery turns into a retry. -/
def generate_file (w : World) (dataset_id : String) (g : RNG) : Except String World :=
  match w.datasets dataset_id with
  | none => .ok w
  | some dataset =>
    match w.schemas dataset.schema with
    | none => .error "DataSchema.DoesNotExist"
    | some schema =>
      match DataSchema_generate schema dataset.rows g with
      | .error e => .error e
      | .ok rows =>
        let content := fileLinesChunked schema.separator schema.string_character rows
        .ok { w with
                files := updateMap w.files (dataset_id ++ ".csv") content,
                datasets := updateMap w.datasets dataset_id { dataset with processed := true } }

/-! ## Streaming download (`views.py`) -/

/-- The response of `DataSetViewSet.retrieve`: either a not-found error or a
streaming response carrying a content type, a `Content-Disposition` header and
the lazily produced chunks. -/
inductive HttpResponse where
  | notFound
  | stream (contentType : String) (contentDisposition : String) (chunks : List String)
deriving DecidableEq, Repr

/-- Model of `DataSetViewSet.chunked_read`: drive the reader (delimiter = the schema's
separator, Python-default quote character `"`), batch the parsed rows in groups
of `CHUNK_SIZE`, and re-encode each batch row by row with the default-quoting
writer (`csv.writer(buffer, delimiter=sep)`), yielding one string per batch. -/
def chunked_read (sep : Char) (lines : List String) : List String :=
  let parsed := lines.map fun l => decodeRowStr sep '"' (stripCRLF l)
  (chunksOf parsed).map fun chunk => String.join (chunk.map (writerowMin sep))

/-- Model of `DataSetViewSet.retrieve`: `get_object` over the *unfiltered* dataset
queryset (404 only when no such dataset exists), then a not-found check on the
backing file, then a `StreamingHttpResponse` of `chunked_read` with
`text/csv` content type and an attachment `Content-Disposition`.  The schema
lookup models the `dataset.schema` FK dereference.  The `processed` flag is
never consulted. -/
def retrieve (w : World) (userId : Nat) (id : String) : HttpResponse :=
  match w.datasets id with
  | none => .notFound
  | some dataset =>
    match w.files (dataset.id ++ ".csv") with
    | none => .notFound
    | some lines =>
      match w.schemas dataset.schema with
      | none => .notFound
      | some schema =>
        .stream "text/csv"
          ("attachment; filename=\"" ++ dataset.id ++ ".csv\"")
          (chunked_read schema.separator lines)

/-- Model of `DataSetViewSet`'s object lookup: the class defines
`queryset = models.DataSet.objects.order_by('-created')` and does *not*
override `get_queryset`, so the lookup ignores the requesting user. -/
def DataSet_get_object (w : World) (userId : Nat) (id : String) : Option DataSet :=
  w.datasets id

/-- Model of `DataSchemaViewSet.get_queryset`: `self.queryset.filter(user_id=self.request.user.id)`
— schema lookups are scoped to the requesting user. -/
def DataSchema_get_queryset (w : World) (userId : Nat) : Nat → Option DataSchema :=
  fun sid =>
    match w.schemas sid with
    | some schema => if schema.user = userId then some schema else none
    | none => none

/-! ## Column validation (`serializers.py`) -/

/-- A JSON value as it can arrive in the `params` field of a column submission
(the model's `JSONField`): number, string, boolean, null, array or object.
Python's `float()` is rational-valued on the inputs it accepts, so numbers are
modelled as rationals. -/
inductive PVal where
  | num (q : ℚ)
  | pstr (s : String)
  | pbool (b : Bool)
  | pnull
  | parr (xs : List PVal)
  | pdict (kvs : List (String × PVal))

/-- The value stored under `key`, if any. -/
def dictGet (kvs : List (String × PVal)) (k : String) : Option PVal :=
  match kvs.find? (fun kv => kv.1 = k) with
  | some kv => some kv.2
  | none => none

/-- Model of `value = params.get(key, None)` followed by the `if value is None` check:
a missing key and a stored JSON `null` both read back as Python `None`. -/
def paramsGet (kvs : List (String × PVal)) (k : String) : Option PVal :=
  match dictGet kvs k with
  | some .pnull => none
  | r => r

/-- Fold a digit list into a natural number. -/
def digitsToNat (cs : List Char) : Nat :=
  cs.foldl (fun a c => a * 10 + (c.toNat - 48)) 0

/-- Model of `float(s)` on a string: an optional sign, then a plain decimal literal
(integer part, optional fraction); anything else raises `ValueError`.
(Python also accepts exponents and special values; the claims only need that
malformed strings are rejected, which holds a fortiori.) -/
def parseDecimal (s : String) : Option ℚ :=
  let cs := s.toList
  let (neg, cs) :=
    match cs with
    | '-' :: t => (true, t)
    | '+' :: t => (false, t)
    | _ => (false, cs)
  let intPart := cs.takeWhile Char.isDigit
  let rest := cs.dropWhile Char.isDigit
  let build : Nat → Nat → Nat → Option ℚ := fun ip fp fdigits =>
    let mag : ℚ := (ip : ℚ) + (fp : ℚ) / ((10 : ℚ) ^ fdigits)
    some (if neg then -mag else mag)
  match rest with
  | [] => if intPart = [] then none else build (digitsToNat intPart) 0 0
  | '.' :: frac =>
    if frac.all Char.isDigit ∧ (intPart ≠ [] ∨ frac ≠ []) then
      build (digitsToNat intPart) (digitsToNat frac) frac.length
    else none
  | _ => none

/-- Model of `float(value)` on a JSON value: numbers and booleans convert, numeric
strings parse, everything else (`None`, lists, dicts, malformed strings)
raises (`TypeError` / `ValueError`), modelled as `none`. -/
def pyFloat : PVal → Option ℚ
  | .num q => some q
  | .pbool b => some (if b then 1 else 0)
  | .pstr s => parseDecimal s
  | _ => none

/-- Constant `ColumnSerializer.params_required_types = (INTEGER_SID, TEXT_SID)`. -/
def paramsRequired (t : TypeSid) : Bool :=
  match t with
  | .integer => true
  | .text => true
  | _ => false

/-- The attributes reaching `ColumnSerializer.validate`: the submitted name,
order, raw `params` JSON (absent = `None`) and the column type's sid. -/
structure ColumnAttrs where
  name : String
  order : Nat
  params : Option PVal
  type : TypeSid

/-- The validated attributes: `params` replaced by the float-coerced
`{start, end}` pair for parameterized types, `None` otherwise. -/
structure ValidatedAttrs where
  name : String
  order : Nat
  params : Option (ℚ × ℚ)
  type : TypeSid
deriving DecidableEq, Repr

/-- Model of `ColumnSerializer.validate`: reject a parameterized column whose `params`
is absent; null out `params` for non-parameterized types; otherwise require a
dictionary, require `start` and `end` to be present, non-null and
float-convertible, and require `start < end`; on success replace `params` with
the coerced float pair. -/
def ColumnSerializer_validate (attrs : ColumnAttrs) : Except String ValidatedAttrs :=
  if attrs.params.isNone ∧ paramsRequired attrs.type then
    .error "This field is required for given column types"
  else if ¬ paramsRequired attrs.type then
    .ok ⟨attrs.name, attrs.order, none, attrs.type⟩
  else
    match attrs.params with
    | some (.pdict kvs) =>
      (match paramsGet kvs "start" with
       | none => .error "Invalid input"
       | some v₁ =>
         match pyFloat v₁ with
         | none => .error "Invalid input"
         | some s =>
           match paramsGet kvs "end" with
           | none => .error "Invalid input"
           | some v₂ =>
             match pyFloat v₂ with
             | none => .error "Invalid input"
             | some e =>
               if s ≥ e then .error "Invalid input"
               else .ok ⟨attrs.name, attrs.order, some (s, e), attrs.type⟩)
    | _ => .error "Only dictionaries allowed"

/-- Whether an `Except` result is an error. -/
def isErr {ε α : Type} : Except ε α → Bool
  | .error _ => true
  | .ok _ => false

/-- Column creation as guarded by the serializer: `is_valid(raise_exception=True)`
followed by `save` — a column record is created only from validated attributes. -/
def createColumn (attrs : ColumnAttrs) : Option ValidatedAttrs :=
  match ColumnSerializer_validate attrs with
  | .ok a => some a
  | .error _ => none

/-- Convenience accessor used to state C5: the `params` entry under a key, when
`params` is a dictionary holding a non-null one (for absent or non-dictionary
`params` every key counts as missing, as does a stored JSON `null`). -/
def getParam (p : Option PVal) (k : String) : Option PVal :=
  match p with
  | some (.pdict kvs) => paramsGet kvs k
  | _ => none

/-! ## Concrete fixtures used by witnesses and counterexamples -/

/-- A random stream that always draws 1. -/
def tapeOne : RNG := fun _ => 1

/-- A random stream that always draws 0. -/
def tapeZero : RNG := fun _ => 0

/-- A concrete Integer column `{name: "n", order: 0, params: {start: 1, end: 5}}`. -/
def col1 : Column := ⟨"n", 0, some ⟨1, 5⟩, .integer⟩

/-- A concrete schema owned by user 1 with default separator and quote. -/
def sch1 : DataSchema := ⟨"t", 0, ',', '"', 1, [col1]⟩

/-- A concrete dataset referencing schema 7, not yet processed. -/
def ds1 : DataSet := ⟨"d1", 2, false, 0, 7⟩

/-- A world holding `ds1`, its schema under key 7, and a generated file
`d1.csv` with one stored line. -/
def w1 : World :=
  ⟨fun i => if i = "d1" then some ds1 else none,
   fun n => if n = 7 then some sch1 else none,
   fun f => if f = "d1.csv" then some ["\"a\"\r\n"] else none⟩

/-- The empty world: no datasets, no schemas, no files. -/
def wEmpty : World := ⟨fun _ => none, fun _ => none, fun _ => none⟩

/-! ## Helper lemmas -/

/-- Concatenating the chunks of the chunking worker restores the original list
whenever the fuel covers the list length. -/
theorem chunksOfGo_flatten {α : Type} :
    ∀ (fuel : Nat) (l : List α), l.length ≤ fuel → (chunksOfGo fuel l).flatten = l
  | 0, [], _ => rfl
  | _ + 1, [], _ => rfl
  | 0, _ :: _, h => absurd h (by simp)
  | fuel + 1, x :: xs, h => by
    rw [show chunksOfGo (fuel + 1) (x :: xs) =
          (x :: xs.take (CHUNK_SIZE - 1)) :: chunksOfGo fuel (xs.drop (CHUNK_SIZE - 1))
        from rfl]
    rw [List.flatten_cons,
      chunksOfGo_flatten fuel (xs.drop (CHUNK_SIZE - 1))
        (by simp only [List.length_drop]; simp at h; omega),
      List.cons_append, List.take_append_drop]

/-- Concatenating the chunks of the chunking loop restores the original list. -/
theorem chunksOf_flatten {α : Type} (l : List α) : (chunksOf l).flatten = l :=
  chunksOfGo_flatten l.length l le_rfl

/-- The draw of `randint` lands in the inclusive range `[a, b]` whenever `a ≤ b`. -/
theorem randint_mem (a b : Int) (g : RNG) (h : a ≤ b) :
    a ≤ (randint a b g).1 ∧ (randint a b g).1 ≤ b := by
  unfold randint
  have h₀ : (0 : Int) ≤ (g 0 : Int) % (b - a + 1) :=
    Int.emod_nonneg _ (by omega)
  have h₁ : (g 0 : Int) % (b - a + 1) < b - a + 1 :=
    Int.emod_lt_of_pos _ (by omega)
  constructor <;> simp <;> omega

/-! ## C4 — chunked writing refines unchunked writing -/

/-- C4: for every row sequence (hence every requested count, however much
larger than the batch size of 1000), the chunked write loop of `generate_file`
— consume one row, then up to `CHUNK_SIZE - 1` more, write the batch, repeat —
produces exactly the lines, in the order, of the unchunked reference that
encodes the whole sequence at once. -/
theorem fileLinesChunked_eq_ref (sep q : Char) (rows : List Row) :
    fileLinesChunked sep q rows = fileLinesRef sep q rows := by
  unfold fileLinesChunked fileLinesRef
  rw [← List.map_flatten, chunksOf_flatten]

/-! ## C2 — generated Integer values and Text fragment counts -/

/-- C2 counterexample: with params `{start: 0, end: 1}` and a random draw of 1,
`Integer.generate_value` returns 1 = `end` (Python's `randint` is inclusive of
both bounds), and `Text.generate_value` draws 1 = `end` sentence fragments; the
claimed strict bound `value < end` is false. -/
theorem Integer_generate_value_reaches_end :
    ((Integer_generate_value ⟨0, 1⟩ tapeOne).1 = 1 ∧
      ¬ (Integer_generate_value ⟨0, 1⟩ tapeOne).1 < 1) ∧
    (text_fragment_count ⟨0, 1⟩ tapeOne = 1 ∧
      ¬ text_fragment_count ⟨0, 1⟩ tapeOne < 1) := by
  decide

/-- C2 (amended): for every Integer or Text column with params
`{start, end}`, `start < end`, and every random draw, the generated integer
satisfies `start ≤ value ≤ end`, and the number of sentence fragments
concatenated by `Text.generate_value` satisfies `start ≤ n ≤ end` —
the inclusive upper bound, not the claimed exclusive one. -/
theorem generate_value_in_inclusive_range (s e : Int) (g : RNG) (h : s < e) :
    (s ≤ (Integer_generate_value ⟨s, e⟩ g).1 ∧ (Integer_generate_value ⟨s, e⟩ g).1 ≤ e) ∧
    (s ≤ text_fragment_count ⟨s, e⟩ g ∧ text_fragment_count ⟨s, e⟩ g ≤ e) := by
  have hb := randint_mem s e g (le_of_lt h)
  exact ⟨hb, hb⟩

/-- Witness for the amended C2 at `start = 0`, `end = 5`. -/
theorem generate_value_in_inclusive_range_witness :
    ((0 : Int) ≤ (Integer_generate_value ⟨0, 5⟩ tapeOne).1 ∧
      (Integer_generate_value ⟨0, 5⟩ tapeOne).1 ≤ 5) ∧
    ((0 : Int) ≤ text_fragment_count ⟨0, 5⟩ tapeOne ∧
      text_fragment_count ⟨0, 5⟩ tapeOne ≤ 5) :=
  generate_value_in_inclusive_range 0 5 tapeOne (by decide)

/-! ## C6 — missing dataset at task start is a silent no-op -/

/-- C6: if no dataset with the given id exists when `generate_file` starts, the
task returns without error (`.ok`), writes no file and performs no mutation at
all: the resulting world is the input world itself. -/
theorem generate_file_missing_dataset (w : World) (id : String) (g : RNG)
    (h : w.datasets id = none) : generate_file w id g = .ok w := by
  unfold generate_file
  rw [h]

/-- Witness for C6 on the empty world. -/
theorem generate_file_missing_dataset_witness :
    generate_file wEmpty "deadbeef" tapeOne = .ok wEmpty :=
  generate_file_missing_dataset wEmpty "deadbeef" tapeOne rfl

/-! ## C3 — CSV encode/decode round trip -/

/-- Inside a quoted field, scanning the escaped (quote-doubled) image of `f`
appends exactly `f` to the current field and stays in the quoted state. -/
theorem foldl_csvStep_escape (sep q : Char) (f : List Char) :
    ∀ (cur : List Char) (flds : List (List Char)),
      List.foldl (csvStep sep q) ⟨.inQuoted, cur, flds⟩ (escapeField q f) =
        ⟨.inQuoted, cur ++ f, flds⟩ := by
  induction f with
  | nil => intro cur flds; simp [escapeField]
  | cons c t ih =>
    intro cur flds
    by_cases hc : c = q
    · subst hc
      rw [show escapeField c (c :: t) = c :: c :: escapeField c t by
            simp [escapeField]]
      rw [List.foldl_cons, List.foldl_cons]
      rw [show csvStep sep c ⟨.inQuoted, cur, flds⟩ c = ⟨.quoteInQuoted, cur, flds⟩ by
            simp [csvStep]]
      rw [show csvStep sep c ⟨.quoteInQuoted, cur, flds⟩ c = ⟨.inQuoted, cur ++ [c], flds⟩ by
            simp [csvStep]]
      rw [ih]
      simp
    · rw [show escapeField q (c :: t) = c :: escapeField q t by
            simp [escapeField, hc]]
      rw [List.foldl_cons]
      rw [show csvStep sep q ⟨.inQuoted, cur, flds⟩ c = ⟨.inQuoted, cur ++ [c], flds⟩ by
            simp [csvStep, hc]]
      rw [ih]
      simp

/-- Scanning one fully quoted field from the start-of-field state accumulates
exactly that field and ends just after its closing quote. -/
theorem foldl_csvStep_encodeField (sep q : Char) (f : List Char)
    (cur : List Char) (flds : List (List Char)) :
    List.foldl (csvStep sep q) ⟨.startField, cur, flds⟩ (encodeField q f) =
      ⟨.quoteInQuoted, cur ++ f, flds⟩ := by
  unfold encodeField
  rw [List.foldl_cons]
  rw [show csvStep sep q ⟨.startField, cur, flds⟩ q = ⟨.inQuoted, cur, flds⟩ by
        simp [csvStep]]
  rw [List.foldl_append, foldl_csvStep_escape]
  simp [csvStep]

/-- Scanning the full encoding of a non-empty field list, starting a fresh
field with `flds` already completed, finishes with `flds ++ fs`. -/
theorem decode_encodeRow_aux (sep q : Char) (h : sep ≠ q) :
    ∀ (fs : List (List Char)), fs ≠ [] → ∀ (flds : List (List Char)),
      csvFinish (List.foldl (csvStep sep q) ⟨.startField, [], flds⟩ (encodeRow sep q fs)) =
        flds ++ fs
  | [], hne => absurd rfl hne
  | [f], _ => by
    intro flds
    rw [show encodeRow sep q [f] = encodeField q f from rfl]
    rw [foldl_csvStep_encodeField]
    simp [csvFinish]
  | f :: f' :: t, _ => by
    intro flds
    rw [show encodeRow sep q (f :: f' :: t) =
          encodeField q f ++ sep :: encodeRow sep q (f' :: t) from rfl]
    rw [List.foldl_append, foldl_csvStep_encodeField, List.foldl_cons]
    rw [show csvStep sep q ⟨.quoteInQuoted, [] ++ f, flds⟩ sep =
          ⟨.startField, [], flds ++ [[] ++ f]⟩ by
            have hq : ¬ sep = q := h
            simp [csvStep, hq]]
    rw [decode_encodeRow_aux sep q h (f' :: t) (by simp) (flds ++ [[] ++ f])]
    simp

/-- C3: encoding a row with the schema's separator and quote character under
the generation writer's contract (every field quoted, embedded quotes doubled)
and then decoding the resulting line with the same separator and quote
character reproduces the original field values in order — including fields
containing the separator or the quote character.  Requires only that the
separator and quote characters differ. -/
theorem csv_encode_decode_roundtrip (sep q : Char) (h : sep ≠ q)
    (fields : List String) :
    decodeRowStr sep q (encodeRowStr sep q fields) = fields := by
  cases fields with
  | nil => rfl
  | cons f rest =>
    unfold decodeRowStr encodeRowStr decodeRow
    rw [show (String.mk (encodeRow sep q ((f :: rest).map String.toList))).toList =
          encodeRow sep q ((f :: rest).map String.toList) from rfl]
    rw [decode_encodeRow_aux sep q h ((f :: rest).map String.toList) (by simp) []]
    simp only [List.nil_append, List.map_map]
    rw [show (String.mk ∘ String.toList) = id by funext s; rfl]
    simp

/-- Witness for C3: a round trip through fields containing the separator, the
quote character and the empty string. -/
theorem csv_encode_decode_roundtrip_witness :
    (',' : Char) ≠ '"' ∧
      decodeRowStr ',' '"' (encodeRowStr ',' '"' ["a,b", "c\"d", ""]) =
        ["a,b", "c\"d", ""] :=
  ⟨by decide, csv_encode_decode_roundtrip ',' '"' (by decide) ["a,b", "c\"d", ""]⟩

/-! ## C1 — shape of `DataSchema.generate` -/

/-- A value generator succeeds whenever its kind's params requirement is met. -/
theorem ColumnType_generate_value_ok (t : TypeSid) (p : Option Params) (g : RNG)
    (h : paramsOk t p = true) :
    ∃ v g', ColumnType_generate_value t p g = .ok (v, g') := by
  cases t <;> cases p <;>
    first
      | exact ⟨_, _, rfl⟩
      | simp [paramsOk] at h

/-- With well-formed columns, one data row always generates: a list of
per-column values, one per column, in the columns' list order. -/
theorem genRowAux_ok (cols : List Column) :
    (∀ c ∈ cols, paramsOk c.type c.params = true) → ∀ (g : RNG),
      ∃ vs g', genRowAux cols g = .ok (vs, g') ∧ vs.length = cols.length := by
  induction cols with
  | nil => exact fun _ g => ⟨[], g, rfl, rfl⟩
  | cons c cs ih =>
    intro h g
    obtain ⟨v, g₁, hv⟩ :=
      ColumnType_generate_value_ok c.type c.params g (h c (by simp))
    obtain ⟨vs, g₂, hvs, hlen⟩ := ih (fun c' hc' => h c' (by simp [hc'])) g₁
    refine ⟨v :: vs, g₂, ?_, by simp [hlen]⟩
    simp [genRowAux, hv, hvs]

/-- With well-formed columns, `count` data rows always generate, each of them a
row `genRowAux` produces from some random state. -/
theorem generateData_ok (cols : List Column)
    (h : ∀ c ∈ cols, paramsOk c.type c.params = true) :
    ∀ (count : Nat) (g : RNG),
      ∃ rows, generateData cols count g = .ok rows ∧ rows.length = count ∧
        ∀ r ∈ rows, ∃ g₁ g₂, genRowAux cols g₁ = .ok (r, g₂) := by
  intro count
  induction count with
  | zero => exact fun g => ⟨[], rfl, rfl, by simp⟩
  | succ n ih =>
    intro g
    obtain ⟨row, g₁, hrow, _⟩ := genRowAux_ok cols h g
    obtain ⟨rows, hrows, hlen, hmem⟩ := ih g₁
    refine ⟨row :: rows, ?_, by simp [hlen], ?_⟩
    · simp [generateData, hrow, hrows]
    · intro r hr
      rcases List.mem_cons.mp hr with hr | hr
      · exact ⟨g, g₁, hr ▸ hrow⟩
      · exact hmem r hr

/-- C1: for every schema with at least one column (all parameterized columns
carrying their params, as the serializer guarantees for every persisted
column), every count `N ≥ 0` and every random stream, `DataSchema.generate`
yields exactly `N + 1` rows; the first yielded row is the list of column names
over the columns sorted ascending by `order` (a sorted permutation of the
schema's columns), and every subsequent row is the list of per-column generated
values produced by the row generator over that same sorted column order. -/
theorem DataSchema_generate_shape (s : DataSchema) (count : Nat) (g : RNG)
    (hcols : s.columns ≠ [])
    (hwf : ∀ c ∈ s.columns, paramsOk c.type c.params = true) :
    ∃ rows, DataSchema_generate s count g = .ok rows ∧
      rows.length = count + 1 ∧
      rows.head? = some (.header ((sortedColumns s).map Column.name)) ∧
      List.Sorted colLE (sortedColumns s) ∧
      (sortedColumns s).Perm s.columns ∧
      ∀ r ∈ rows.tail, ∃ vs g₁ g₂, r = .data vs ∧
        genRowAux (sortedColumns s) g₁ = .ok (vs, g₂) := by
  have hwf' : ∀ c ∈ sortedColumns s, paramsOk c.type c.params = true := by
    intro c hc
    exact hwf c ((List.mem_insertionSort colLE).mp hc)
  obtain ⟨rows, hrows, hlen, hmem⟩ := generateData_ok (sortedColumns s) hwf' count g
  refine ⟨.header (headerRow s) :: rows.map .data, ?_, by simp [hlen], rfl, ?_, ?_, ?_⟩
  · simp [DataSchema_generate, hrows]
  · exact List.sorted_insertionSort colLE s.columns
  · exact List.perm_insertionSort colLE s.columns
  · intro r hr
    simp only [List.tail_cons, List.mem_map] at hr
    obtain ⟨vs, hvs, hr⟩ := hr
    obtain ⟨g₁, g₂, hg⟩ := hmem vs hvs
    exact ⟨vs, g₁, g₂, hr.symm, hg⟩

/-- Witness for C1 on the concrete one-column schema `sch1` with `N = 3`. -/
theorem DataSchema_generate_shape_witness :
    sch1.columns ≠ [] ∧
      ∃ rows, DataSchema_generate sch1 3 tapeZero = .ok rows ∧
        rows.length = 3 + 1 ∧
        rows.head? = some (.header ((sortedColumns sch1).map Column.name)) ∧
        List.Sorted colLE (sortedColumns sch1) ∧
        (sortedColumns sch1).Perm sch1.columns ∧
        ∀ r ∈ rows.tail, ∃ vs g₁ g₂, r = .data vs ∧
          genRowAux (sortedColumns sch1) g₁ = .ok (vs, g₂) :=
  ⟨by decide,
   DataSchema_generate_shape sch1 3 tapeZero (by decide) (by decide)⟩

/-! ## C5 — validation of Integer/Text column params -/

/-- C5: for every Integer or Text column submission, `ColumnSerializer.validate`
raises a validation error — and hence no column is created — whenever `params`
is absent, `start` or `end` is missing (in particular when `params` is not a
dictionary at all), `start` or `end` is not numeric (not float-convertible), or
`start ≥ end`. -/
theorem ColumnSerializer_validate_rejects (attrs : ColumnAttrs)
    (hreq : paramsRequired attrs.type = true)
    (hbad : attrs.params.isNone = true
         ∨ getParam attrs.params "start" = none
         ∨ getParam attrs.params "end" = none
         ∨ (∃ v, getParam attrs.params "start" = some v ∧ pyFloat v = none)
         ∨ (∃ v, getParam attrs.params "end" = some v ∧ pyFloat v = none)
         ∨ (∃ v₁ v₂ s e, getParam attrs.params "start" = some v₁ ∧ pyFloat v₁ = some s ∧
              getParam attrs.params "end" = some v₂ ∧ pyFloat v₂ = some e ∧ s ≥ e)) :
    isErr (ColumnSerializer_validate attrs) = true ∧ createColumn attrs = none := by
  have herr : isErr (ColumnSerializer_validate attrs) = true := by
    unfold ColumnSerializer_validate
    rcases hp : attrs.params with _ | p
    · simp [hreq, isErr]
    · rcases p with q | s' | b | _ | xs | kvs
      · simp [hreq, isErr]
      · simp [hreq, isErr]
      · simp [hreq, isErr]
      · simp [hreq, isErr]
      · simp [hreq, isErr]
      · rcases hs : paramsGet kvs "start" with _ | v₁
        · simp [hreq, hs, isErr]
        · rcases hf₁ : pyFloat v₁ with _ | s
          · simp [hreq, hs, hf₁, isErr]
          · rcases hs₂ : paramsGet kvs "end" with _ | v₂
            · simp [hreq, hs, hf₁, hs₂, isErr]
            · rcases hf₂ : pyFloat v₂ with _ | e
              · simp [hreq, hs, hf₁, hs₂, hf₂, isErr]
              · by_cases hge : s ≥ e
                · simp [hreq, hs, hf₁, hs₂, hf₂, hge, isErr]
                · exfalso
                  rcases hbad with h | h | h | ⟨v, hv, hfv⟩ | ⟨v, hv, hfv⟩ |
                    ⟨u₁, u₂, a, b', h₁, hfa, h₂, hfb, hab⟩
                  · rw [hp] at h
                    simp at h
                  · rw [hp] at h
                    simp only [getParam] at h
                    rw [hs] at h
                    exact Option.noConfusion h
                  · rw [hp] at h
                    simp only [getParam] at h
                    rw [hs₂] at h
                    exact Option.noConfusion h
                  · rw [hp] at hv
                    simp only [getParam] at hv
                    rw [hs] at hv
                    injection hv with hv
                    subst hv
                    rw [hfv] at hf₁
                    exact Option.noConfusion hf₁
                  · rw [hp] at hv
                    simp only [getParam] at hv
                    rw [hs₂] at hv
                    injection hv with hv
                    subst hv
                    rw [hfv] at hf₂
                    exact Option.noConfusion hf₂
                  · rw [hp] at h₁ h₂
                    simp only [getParam] at h₁ h₂
                    rw [hs] at h₁
                    rw [hs₂] at h₂
                    injection h₁ with h₁
                    injection h₂ with h₂
                    subst h₁
                    subst h₂
                    rw [hfa] at hf₁
                    rw [hfb] at hf₂
                    injection hf₁ with hf₁
                    injection hf₂ with hf₂
                    subst hf₁
                    subst hf₂
                    exact hge hab
  refine ⟨herr, ?_⟩
  unfold createColumn
  rcases hv : ColumnSerializer_validate attrs with e | a
  · rfl
  · rw [hv] at herr
    simp [isErr] at herr

/-- Witness for C5: an Integer column submitted without `params` is rejected
and creates no column. -/
theorem ColumnSerializer_validate_rejects_witness :
    isErr (ColumnSerializer_validate ⟨"c", 0, none, .integer⟩) = true ∧
      createColumn ⟨"c", 0, none, .integer⟩ = none :=
  ColumnSerializer_validate_rejects ⟨"c", 0, none, .integer⟩ rfl (Or.inl rfl)

/-! ## C7 — dataset retrieval and the not-found conditions -/

/-- C7 counterexample: in the concrete world `w1` the dataset `d1` is *not*
processed, yet its backing file exists, and `retrieve` streams it instead of
responding not-found — the code checks only file existence, never the
`processed` flag, so the claim's "unprocessed implies not-found" is false. -/
theorem retrieve_streams_unprocessed_dataset :
    (w1.datasets "d1").map DataSet.processed = some false ∧
      retrieve w1 1 "d1" ≠ .notFound := by
  constructor
  · rfl
  · decide

/-- C7 (amended): retrieval responds not-found exactly when the dataset does
not exist or its backing file is missing; when the dataset and its file (and,
via the foreign key, its schema) exist, it streams the file as a `text/csv`
attachment — regardless of the `processed` flag. -/
theorem retrieve_not_found_conditions (w : World) (u : Nat) (id : String) :
    (w.datasets id = none → retrieve w u id = .notFound) ∧
    (∀ ds, w.datasets id = some ds → w.files (ds.id ++ ".csv") = none →
      retrieve w u id = .notFound) ∧
    (∀ ds lines sch, w.datasets id = some ds →
      w.files (ds.id ++ ".csv") = some lines → w.schemas ds.schema = some sch →
      retrieve w u id = .stream "text/csv"
        ("attachment; filename=\"" ++ ds.id ++ ".csv\"")
        (chunked_read sch.separator lines)) := by
  refine ⟨?_, ?_, ?_⟩
  · intro h
    simp [retrieve, h]
  · intro ds hds hfile
    simp [retrieve, hds, hfile]
  · intro ds lines sch hds hfile hsch
    simp [retrieve, hds, hfile, hsch]

/-- Witness for C7 (amended): not-found on the empty world, a stream on `w1`. -/
theorem retrieve_not_found_conditions_witness :
    retrieve wEmpty 1 "nope" = .notFound ∧
      retrieve w1 1 "d1" = .stream "text/csv"
        ("attachment; filename=\"" ++ ds1.id ++ ".csv\"")
        (chunked_read sch1.separator ["\"a\"\r\n"]) :=
  ⟨(retrieve_not_found_conditions wEmpty 1 "nope").1 rfl,
   (retrieve_not_found_conditions w1 1 "d1").2.2 ds1 ["\"a\"\r\n"] sch1 rfl rfl rfl⟩

/-! ## C8 — what the download actually re-encodes -/

/-- Flattening chunk-wise flattened images equals flattening the whole map,
for the fueled chunking worker. -/
theorem flatten_chunksOfGo {α β : Type} (h : α → List β) :
    ∀ (fuel : Nat) (l : List α), l.length ≤ fuel →
      ((chunksOfGo fuel l).map fun ch => (ch.map h).flatten).flatten =
        (l.map h).flatten
  | 0, [], _ => rfl
  | _ + 1, [], _ => rfl
  | 0, _ :: _, hf => absurd hf (by simp)
  | fuel + 1, x :: xs, hf => by
    rw [show chunksOfGo (fuel + 1) (x :: xs) =
          (x :: xs.take (CHUNK_SIZE - 1)) :: chunksOfGo fuel (xs.drop (CHUNK_SIZE - 1))
        from rfl]
    simp only [List.map_cons, List.flatten_cons]
    rw [flatten_chunksOfGo h fuel (xs.drop (CHUNK_SIZE - 1))
        (by simp only [List.length_drop]; simp at hf; omega)]
    rw [List.append_assoc, ← List.flatten_append, ← List.map_append,
      List.take_append_drop]

/-- Flattening chunk-wise flattened images equals flattening the whole map. -/
theorem flatten_chunksOf {α β : Type} (h : α → List β) (l : List α) :
    ((chunksOf l).map fun ch => (ch.map h).flatten).flatten = (l.map h).flatten :=
  flatten_chunksOfGo h l.length l le_rfl

/-- Joining per-chunk joins equals joining the underlying per-row strings. -/
theorem strJoin_chunksOf {α : Type} (f : α → String) (l : List α) :
    String.join ((chunksOf l).map fun ch => String.join (ch.map f)) =
      String.join (l.map f) := by
  apply String.ext
  simp only [String.data_join, List.map_map, Function.comp_def]
  exact flatten_chunksOf (fun a => (f a).data) l

/-- C8 counterexample: the stored line `"a"` (fully quoted by generation) is
streamed back as the unquoted `a` — `chunked_read` re-encodes with Python's
default `QUOTE_MINIMAL` writer and default `"` quote character, not with the
generation encoder's unconditional quoting in the schema's quote character. -/
theorem chunked_read_not_fully_quoted :
    chunked_read ',' ["\"a\"\r\n"] = ["a\r\n"] ∧
      writerowMin ',' ["a"] ≠ writerowAll ',' '"' (.data [.str "a"]) := by
  constructor <;> decide

/-- C8 (amended): the streamed download decodes the stored lines with the
schema's separator (and default `"` quote character) and re-encodes them in
batches of `CHUNK_SIZE` with a writer that uses the schema's separator but
Python's default quoting — quote character `"`, fields quoted only when they
contain the separator, a quote or a newline; the concatenated stream equals the
row-by-row re-encoding (the batching is invisible in the content). -/
theorem chunked_read_stream_content (sep : Char) (lines : List String) :
    String.join (chunked_read sep lines) =
      String.join ((lines.map fun l => decodeRowStr sep '"' (stripCRLF l)).map
        (writerowMin sep)) := by
  unfold chunked_read
  exact strJoin_chunksOf (writerowMin sep) _

/-! ## C9 — the task persists only the `processed` flag -/

/-- C9: whenever `generate_file` finds its dataset and completes successfully,
the stored dataset afterwards is exactly the old record with `processed := true`
— id, rows, created and schema reference unchanged — and no other dataset row
and no schema row is touched. -/
theorem generate_file_marks_processed_only (w : World) (id : String) (g : RNG)
    (ds : DataSet) (w' : World)
    (hds : w.datasets id = some ds)
    (hok : generate_file w id g = .ok w') :
    w'.datasets id = some { ds with processed := true } ∧
    (∀ j, j ≠ id → w'.datasets j = w.datasets j) ∧
    w'.schemas = w.schemas := by
  unfold generate_file at hok
  simp only [hds] at hok
  rcases hsch : w.schemas ds.schema with _ | sch
  · simp [hsch] at hok
  · simp only [hsch] at hok
    rcases hgen : DataSchema_generate sch ds.rows g with e | rows
    · simp [hgen] at hok
    · simp only [hgen] at hok
      injection hok with hok
      subst hok
      refine ⟨?_, ?_, rfl⟩
      · simp [updateMap]
      · intro j hj
        simp [updateMap, hj]

/-- The world after running the generation task on `w1` (used by the witness). -/
def w1after : World :=
  match generate_file w1 "d1" tapeZero with
  | .ok w => w
  | .error _ => wEmpty

/-- Witness for C9: on the concrete world `w1` the task succeeds and the stored
`d1` afterwards is `ds1` with only `processed` flipped to `true`. -/
theorem generate_file_marks_processed_only_witness :
    w1after.datasets "d1" = some { ds1 with processed := true } :=
  (generate_file_marks_processed_only w1 "d1" tapeZero ds1 w1after rfl rfl).1

/-! ## C10 — dataset access is not scoped to the requesting user -/

/-- C10: dataset lookup (`DataSetViewSet`'s unfiltered queryset) succeeds for
every authenticated user and every existing dataset, including one whose schema
belongs to a different user — and, when the file exists, `retrieve` streams
that other user's file — whereas the same schema is invisible through the
owner-filtered schema queryset. -/
theorem dataset_access_not_user_scoped (w : World) (u : Nat) (id : String)
    (ds : DataSet) (sch : DataSchema)
    (hds : w.datasets id = some ds)
    (hsch : w.schemas ds.schema = some sch)
    (howner : sch.user ≠ u) :
    DataSet_get_object w u id = some ds ∧
    DataSchema_get_queryset w u ds.schema = none ∧
    (∀ lines, w.files (ds.id ++ ".csv") = some lines →
      retrieve w u id = .stream "text/csv"
        ("attachment; filename=\"" ++ ds.id ++ ".csv\"")
        (chunked_read sch.separator lines)) := by
  refine ⟨hds, ?_, ?_⟩
  · simp [DataSchema_get_queryset, hsch, howner]
  · intro lines hfile
    simp [retrieve, hds, hfile, hsch]

/-- Witness for C10: user 2 retrieves dataset `d1` whose schema belongs to
user 1, although that schema is filtered out of user 2's schema queryset. -/
theorem dataset_access_not_user_scoped_witness :
    DataSet_get_object w1 2 "d1" = some ds1 ∧
    DataSchema_get_queryset w1 2 ds1.schema = none ∧
    retrieve w1 2 "d1" = .stream "text/csv"
      ("attachment; filename=\"" ++ ds1.id ++ ".csv\"")
      (chunked_read sch1.separator ["\"a\"\r\n"]) := by
  have h := dataset_access_not_user_scoped w1 2 "d1" ds1 sch1 rfl rfl (by decide)
  exact ⟨h.1, h.2.1, h.2.2 ["\"a\"\r\n"] rfl⟩

end DummyCsv
